import Mathlib

/-!
# Verification of the open-next-cdk manifest-to-topology compiler

A shallow embedding of the core of the `open-next-cdk` repository:
the manifest reader (`src/manifest-reader.ts`), the orchestrator
(`OpenNextCdk` constructor), the per-component environment/grant
composition (`ServerFunction`, `Revalidation`, `TagCacheSeeder`,
`TagCacheTable`) and the CloudFront behavior synthesis
(`DistributionComponent`).

Deploy-time tokens (bucket name, queue URL, stack region, function URLs)
are modelled as fixed symbolic strings: the CDK resolves them late, and no
branching in the embedded code inspects their contents.  JavaScript object
spreads and `addEnvironment` are modelled by list append with lookup of the
LAST binding (`envGet`), matching the override semantics of the source.
-/

/-! ## JSON values (for the manifest reader) -/

/-- A JSON value as produced by `JSON.parse`.  Numbers are modelled as
integers; no claim depends on fractional values. -/
inductive Json where
  | null : Json
  | bool (b : Bool) : Json
  | num (n : Int) : Json
  | str (s : String) : Json
  | arr (elems : List Json) : Json
  | obj (fields : List (String × Json)) : Json

/-- JavaScript truthiness of a JSON value. -/
def Json.truthy : Json → Bool
  | .null => false
  | .bool b => b
  | .num n => !(n == 0)
  | .str s => !(s == "")
  | .arr _ => true
  | .obj _ => true

/-- `typeof v === 'object'` for a JSON value (`null`, arrays and plain
objects all have typeof `object` in JavaScript). -/
def Json.typeofObject : Json → Bool
  | .null => true
  | .arr _ => true
  | .obj _ => true
  | _ => false

/-- `Array.isArray`. -/
def Json.isArr : Json → Bool
  | .arr _ => true
  | _ => false

/-- Property access `v[k]` on a JSON value.  Only plain objects have
string-keyed own properties after `JSON.parse`; duplicate keys keep the
last occurrence, hence the reversed search. -/
def Json.get : Json → String → Option Json
  | .obj fields, k => (fields.reverse.find? (fun e => e.1 == k)).map (·.2)
  | _, _ => none

/-- Truthiness of an optional (possibly `undefined`) JSON value. -/
def Json.truthyOpt : Option Json → Bool
  | none => false
  | some v => v.truthy

/-! ## The manifest reader (`src/manifest-reader.ts`) -/

/-- Outcome of locating and parsing `open-next.output.json`:
the file is absent, present but not valid JSON, or parsed. -/
inductive ReadInput where
  | absent : ReadInput
  | unparsable : ReadInput
  | parsed (j : Json) : ReadInput

/-- The error thrown by `readManifest`, by message family. -/
inductive ManifestError where
  | notFound (msg : String) : ManifestError
  | parseError (msg : String) : ManifestError
  | validationError (msg : String) : ManifestError
deriving DecidableEq, Repr

def manifestFileName : String := "open-next.output.json"

/-- `path.join(openNextPath, 'open-next.output.json')`. -/
def manifestPathOf (openNextPath : String) : String :=
  openNextPath ++ "/" ++ manifestFileName

/-- First check of `validateManifest`:
`!manifest.origins || typeof manifest.origins !== 'object'`. -/
def originsInvalidB (j : Json) : Bool :=
  match j.get "origins" with
  | none => true
  | some v => !v.truthy || !v.typeofObject

/-- Second check of `validateManifest`:
`!manifest.behaviors || !Array.isArray(manifest.behaviors)`. -/
def behaviorsInvalidB (j : Json) : Bool :=
  match j.get "behaviors" with
  | none => true
  | some v => !v.truthy || !v.isArr

/-- Third check of `validateManifest`: `!manifest.origins.default`. -/
def defaultMissingB (j : Json) : Bool :=
  match j.get "origins" with
  | none => true
  | some o => !(Json.truthyOpt (o.get "default"))

/-- `readManifest` from `src/manifest-reader.ts`: existence check, JSON
parse, then `validateManifest`'s three checks in source order. -/
def readManifestModel (openNextPath : String) (inp : ReadInput) :
    Except ManifestError Json :=
  match inp with
  | .absent =>
    .error (.notFound ("OpenNext manifest not found at " ++
      manifestPathOf openNextPath ++
      ". Run `npx @opennextjs/aws build` before `cdk synth`."))
  | .unparsable =>
    .error (.parseError ("Failed to parse OpenNext manifest at " ++
      manifestPathOf openNextPath))
  | .parsed j =>
    if originsInvalidB j then
      .error (.validationError ("Invalid OpenNext manifest at " ++
        manifestPathOf openNextPath ++
        ": missing or invalid \"origins\" field."))
    else if behaviorsInvalidB j then
      .error (.validationError ("Invalid OpenNext manifest at " ++
        manifestPathOf openNextPath ++
        ": missing or invalid \"behaviors\" field."))
    else if defaultMissingB j then
      .error (.validationError ("Invalid OpenNext manifest at " ++
        manifestPathOf openNextPath ++ ": missing \"default\" origin."))
    else
      .ok j

/-- Whether an `Except` result is a success. -/
def exceptIsOk : Except ManifestError Json → Bool
  | .ok _ => true
  | .error _ => false

/-- `normalizeBundlePath` from `src/manifest-reader.ts`: strip a leading
literal `.open-next/` from a path, else pass it through.  The
character-list prefix test models `p.startsWith('.open-next/')`, and
dropping `'.open-next/'.length` characters models `p.slice(11)` (the
prefix is ASCII, so characters coincide with UTF-16 code units). -/
def normalizeBundlePath (p : String) : String :=
  if ".open-next/".data.isPrefixOf p.data then
    String.mk (p.data.drop ".open-next/".length)
  else
    p

/-! ## The typed manifest and caller props -/

/-- A `CopyEntry` of the manifest (`OpenNextCopyEntry` in `types.ts`). -/
structure OpenNextCopyEntry where
  fromPath : String
  toPath : String
  cached : Bool
  versionedSubDir : Option String := none
deriving DecidableEq, Repr

/-- An origin entry of the manifest (`OpenNextOrigin` in `types.ts`). -/
structure OpenNextOrigin where
  type : String
  copy : Option (List OpenNextCopyEntry) := none
  streaming : Option Bool := none
  originPath : Option String := none
deriving DecidableEq, Repr

/-- A behavior entry of the manifest (`OpenNextBehavior` in `types.ts`). -/
structure OpenNextBehavior where
  pattern : String
  origin : Option String := none
  edgeFunction : Option String := none
deriving DecidableEq, Repr

/-- `additionalProps` of the manifest.  The two function references are
modelled by their bundle path (only null-ness is ever inspected). -/
structure OpenNextAdditionalProps where
  disableTagCache : Option Bool := none
  disableIncrementalCache : Option Bool := none
  initializationFunction : Option String := none
  warmer : Option String := none
  revalidationFunction : Option String := none
deriving DecidableEq, Repr

/-- The validated manifest (`OpenNextManifest` in `types.ts`).  `origins`
is the ordered key/value list of the JSON object (keys are distinct after
`JSON.parse`); `edgeFunctions` keeps only its key list, the values being
opaque to the orchestrator. -/
structure OpenNextManifest where
  origins : List (String × OpenNextOrigin)
  behaviors : List OpenNextBehavior
  additionalProps : Option OpenNextAdditionalProps := none
  edgeFunctions : Option (List String) := none
deriving DecidableEq, Repr

/-- Caller-side `TagCacheOptions`. -/
structure TagCacheOptions where
  disabled : Option Bool := none
  existingTable : Option String := none
deriving DecidableEq, Repr

/-- Caller-side `LambdaFunctionOptions`, restricted to the field the
claims exercise: extra environment variables spread into the function
environment.  (Memory, timeout, runtime etc. are opaque pass-throughs.) -/
structure LambdaFunctionOptions where
  environment : List (String × String) := []
deriving DecidableEq, Repr

/-- Caller props of the `OpenNextCdk` construct, restricted to the fields
the claims exercise. `revalidation` models
`props.revalidation?.functionOptions` and `initializationFunction` models
`props.initializationFunction?.functionOptions`. -/
structure OpenNextCdkProps where
  tagCache : Option TagCacheOptions := none
  serverFunction : Option LambdaFunctionOptions := none
  splitFunctions : List (String × LambdaFunctionOptions) := []
  revalidation : Option LambdaFunctionOptions := none
  initializationFunction : Option LambdaFunctionOptions := none
deriving DecidableEq, Repr

/-! ## Symbolic deploy-time tokens -/

def assetsBucketName : String := "token:assets-bucket-name"
def stackRegion : String := "token:stack-region"
def revalidationQueueUrl : String := "token:revalidation-queue-url"
def tagCacheTableName : String := "token:tag-cache-table-name"

/-- The Lambda Function URL of the server function for an origin key. -/
def functionUrlOf (key : String) : String :=
  "token:function-url:" ++ key

/-! ## Environment maps -/

/-- Look up an environment variable.  The LAST binding wins, matching
JavaScript object-spread override and `addEnvironment` semantics. -/
def envGet : List (String × String) → String → Option String
  | [], _ => none
  | e :: rest, k => (envGet rest k).or (if e.1 == k then some e.2 else none)

/-- Environment contributed by a caller's `LambdaFunctionOptions`. -/
def callerEnvOf (o : Option LambdaFunctionOptions) : List (String × String) :=
  (o.map (·.environment)).getD []

/-- `props.splitFunctions?.[originKey]`. -/
def lookupOpts (l : List (String × LambdaFunctionOptions)) (k : String) :
    Option LambdaFunctionOptions :=
  (l.find? (fun e => e.1 == k)).map (·.2)

/-! ## Manifest helpers (`src/manifest-reader.ts`) -/

/-- The three reserved origin keys. -/
def reservedOriginKeys : List String := ["default", "s3", "imageOptimizer"]

/-- `getSplitFunctionOrigins`: every origin key that is not reserved
(regardless of its `type`). -/
def getSplitFunctionOrigins (m : OpenNextManifest) : List String :=
  (m.origins.map Prod.fst).filter (fun k => !(reservedOriginKeys.contains k))

/-- `manifest.origins[key]` (first binding; keys are distinct in JSON). -/
def lookupOrigin (m : OpenNextManifest) (k : String) : Option OpenNextOrigin :=
  (m.origins.find? (fun e => e.1 == k)).map (·.2)

/-- `hasInitializationFunction`:
`manifest.additionalProps?.initializationFunction != null`. -/
def hasInitializationFunction (m : OpenNextManifest) : Bool :=
  (m.additionalProps.bind (·.initializationFunction)).isSome

/-! ## Feature flags resolved by the orchestrator -/

/-- `disableTagCache` in the `OpenNextCdk` constructor:
`props.tagCache?.disabled === true ||
 manifest.additionalProps?.disableTagCache === true`. -/
def tagCacheDisabledOf (m : OpenNextManifest) (p : OpenNextCdkProps) : Bool :=
  (p.tagCache.bind (·.disabled) == some true) ||
  (m.additionalProps.bind (·.disableTagCache) == some true)

/-- `disableIncrementalCache` in the `OpenNextCdk` constructor:
`manifest.additionalProps?.disableIncrementalCache === true`
(manifest-only; no caller override exists). -/
def disableIncrementalCacheOf (m : OpenNextManifest) : Bool :=
  m.additionalProps.bind (·.disableIncrementalCache) == some true

/-! ## Components -/

/-- Options handed to `TagCacheTable` by the orchestrator:
`disableTagCache ? { ...props.tagCache, disabled: true } : props.tagCache`. -/
def effectiveTagCacheOptions (m : OpenNextManifest) (p : OpenNextCdkProps) :
    Option TagCacheOptions :=
  if tagCacheDisabledOf m p then
    some { (p.tagCache.getD {}) with disabled := some true }
  else
    p.tagCache

/-- `TagCacheTable` (`src/components/tag-cache-table.ts`): no table when
disabled, the caller's existing table when given, else a fresh table.  The
result is the table-name handle. -/
def tagCacheTableComponent (opts : Option TagCacheOptions) : Option String :=
  match opts with
  | none => some tagCacheTableName
  | some o =>
    if o.disabled.getD false then none
    else
      match o.existingTable with
      | some t => some t
      | none => some tagCacheTableName

/-- The tag cache table handle produced by step 1 of the orchestrator. -/
def tagTableOf (m : OpenNextManifest) (p : OpenNextCdkProps) : Option String :=
  tagCacheTableComponent (effectiveTagCacheOptions m p)

/-- The revalidation consumer function node. -/
structure RevalNode where
  env : List (String × String)
  bucketReadWrite : Bool
  tableReadWrite : Bool
deriving DecidableEq, Repr

/-- The consumer Lambda of `Revalidation`: bucket variables and the bucket
read-write grant are unconditional; the table variable (added after
creation via `addEnvironment`, hence appended last) and table grant exist
exactly when a tag cache table was passed in. -/
def revalidationComponent (tagTable : Option String)
    (fnEnv : List (String × String)) : RevalNode :=
  { env :=
      [("CACHE_BUCKET_NAME", assetsBucketName),
       ("CACHE_BUCKET_KEY_PREFIX", "_cache"),
       ("CACHE_BUCKET_REGION", stackRegion)] ++ fnEnv ++
      (match tagTable with
       | some t => [("CACHE_DYNAMO_TABLE", t)]
       | none => [])
    bucketReadWrite := true
    tableReadWrite := tagTable.isSome }

/-- The tag cache seeder function node. -/
structure SeederNode where
  env : List (String × String)
  tableReadWrite : Bool
  deployTimestamp : Nat
deriving DecidableEq, Repr

/-- `TagCacheSeeder` guarded by the orchestrator's condition
`this.tagCacheTable && hasInitializationFunction(manifest)`.  The custom
resource's `deployTimestamp` property is `Date.now()`, modelled by the
build's `now` input. -/
def seederComponent (tagTable : Option String) (hasInit : Bool)
    (fnEnv : List (String × String)) (now : Nat) : Option SeederNode :=
  match tagTable with
  | none => none
  | some tbl =>
    if hasInit then
      some
        { env :=
            [("CACHE_DYNAMO_TABLE", tbl),
             ("CACHE_BUCKET_REGION", stackRegion)] ++ fnEnv
          tableReadWrite := true
          deployTimestamp := now }
    else
      none

/-- A server Lambda function node (default or split). -/
structure ServerNode where
  env : List (String × String)
  bucketReadWrite : Bool
  queueSendMessages : Bool
  tableReadWrite : Bool
deriving DecidableEq, Repr

/-- `ServerFunction` (`src/components/server-function.ts`): the cache
bucket variables and bucket grant only when the incremental cache is
enabled; the revalidation queue variables and send grant always; the tag
cache variable and table grant exactly when a table was passed in; the
caller's environment spread last. -/
def serverFunctionComponent (tagTable : Option String)
    (disableIncrementalCache : Bool) (fnEnv : List (String × String)) :
    ServerNode :=
  { env :=
      (if disableIncrementalCache then []
       else
        [("CACHE_BUCKET_NAME", assetsBucketName),
         ("CACHE_BUCKET_KEY_PREFIX", "_cache"),
         ("CACHE_BUCKET_REGION", stackRegion)]) ++
      [("REVALIDATION_QUEUE_URL", revalidationQueueUrl),
       ("REVALIDATION_QUEUE_REGION", stackRegion)] ++
      (match tagTable with
       | some t => [("CACHE_DYNAMO_TABLE", t)]
       | none => []) ++
      fnEnv
    bucketReadWrite := !disableIncrementalCache
    queueSendMessages := true
    tableReadWrite := tagTable.isSome }

/-- `addEnvironment` on an already-created server function: the new
bindings are appended last, so they override earlier ones. -/
def appendEnv (n : ServerNode) (e : List (String × String)) : ServerNode :=
  { n with env := n.env ++ e }

/-- The split origin keys that actually produce a function: the split loop
skips any key whose origin `type` is not `'function'`. -/
def createdSplitKeysOf (m : OpenNextManifest) : List String :=
  (getSplitFunctionOrigins m).filter (fun k =>
    match lookupOrigin m k with
    | some o => o.type == "function"
    | none => false)

/-- The split server functions, in manifest key order (the loop over
`getSplitFunctionOrigins` with the non-`'function'` keys skipped). -/
def splitServersOf (m : OpenNextManifest) (p : OpenNextCdkProps) :
    List (String × ServerNode) :=
  (createdSplitKeysOf m).map (fun k =>
    (k, serverFunctionComponent (tagTableOf m p) (disableIncrementalCacheOf m)
          (callerEnvOf (lookupOpts p.splitFunctions k))))

/-- `serverFunctionUrls`: `'default'` first, then each created split
function, in insertion order. -/
def serverFunctionUrlsOf (m : OpenNextManifest) : List (String × String) :=
  ("default", functionUrlOf "default") ::
    (createdSplitKeysOf m).map (fun k => (k, functionUrlOf k))

/-- The `originMap` for `OPEN_NEXT_ORIGIN`: every entry of
`serverFunctionUrls` except the `'default'` key, mapped to its URL. -/
def originMapOf (m : OpenNextManifest) : List (String × String) :=
  (serverFunctionUrlsOf m).filter (fun e => !(e.1 == "default"))

/-- The orchestrator injects `OPEN_NEXT_ORIGIN` into the default server
function only when `splitOriginKeys.length > 0` — i.e. when ANY
non-reserved origin key exists, compute-typed or not. -/
def defaultOriginMapOf (m : OpenNextManifest) :
    Option (List (String × String)) :=
  if 0 < (getSplitFunctionOrigins m).length then some (originMapOf m)
  else none

/-- `JSON.stringify` of one `key: { url }` entry of the origin map. -/
def encodeOriginEntry (e : String × String) : String :=
  "\"" ++ e.1 ++ "\":\x7b\"url\":\"" ++ e.2 ++ "\"\x7d"

/-- `JSON.stringify(originMap)`. -/
def encodeOriginMap (entries : List (String × String)) : String :=
  "\x7b" ++ String.intercalate "," (entries.map encodeOriginEntry) ++ "\x7d"

/-- The (possibly empty) environment injected into the default server
function after the split functions exist. -/
def openNextOriginEnvOf (m : OpenNextManifest) : List (String × String) :=
  match defaultOriginMapOf m with
  | some entries => [("OPEN_NEXT_ORIGIN", encodeOriginMap entries)]
  | none => []

/-- The default server function after the deferred `OPEN_NEXT_ORIGIN`
injection. -/
def defaultServerOf (m : OpenNextManifest) (p : OpenNextCdkProps) :
    ServerNode :=
  appendEnv
    (serverFunctionComponent (tagTableOf m p) (disableIncrementalCacheOf m)
      (callerEnvOf p.serverFunction))
    (openNextOriginEnvOf m)

/-- The edge-functions warning annotation: raised once per build exactly
when `manifest.edgeFunctions` exists and has at least one key. -/
def edgeWarningOf (m : OpenNextManifest) : Bool :=
  match m.edgeFunctions with
  | some keys => decide (0 < keys.length)
  | none => false

/-! ## Behavior synthesis (`DistributionComponent`) -/

/-- Methods allowed by a CloudFront behavior. -/
inductive AllowedMethods where
  | allowAll
  | allowGetHead
  | allowGetHeadOptions
deriving DecidableEq, Repr

/-- Which cache policy a behavior uses. -/
inductive RuleCachePolicy where
  | cachingOptimized
  | serverCachePolicy
deriving DecidableEq, Repr

/-- The origin a behavior routes to. -/
inductive RuleTarget where
  | s3
  | imageOptimizer
  | server (key : String)
deriving DecidableEq, Repr

/-- One synthesized CloudFront behavior. -/
structure BehaviorRule where
  target : RuleTarget
  allowedMethods : AllowedMethods
  cachePolicy : RuleCachePolicy
  hasOriginRequestPolicy : Bool
  hasResponseHeadersPolicy : Bool
  hasHostRewriteFunction : Bool
  compress : Bool
deriving DecidableEq, Repr

/-- `createServerBehaviorOptions`: the default behavior, bound to the
default server origin, all methods, the server cache policy, the origin
request policy, the response headers policy and the host-rewrite
function association. -/
def serverBehaviorOptionsRule : BehaviorRule :=
  { target := .server "default"
    allowedMethods := .allowAll
    cachePolicy := .serverCachePolicy
    hasOriginRequestPolicy := true
    hasResponseHeadersPolicy := true
    hasHostRewriteFunction := true
    compress := true }

/-- The static-assets behavior template of `createAdditionalBehaviors`. -/
def s3BehaviorRule : BehaviorRule :=
  { target := .s3
    allowedMethods := .allowGetHead
    cachePolicy := .cachingOptimized
    hasOriginRequestPolicy := false
    hasResponseHeadersPolicy := false
    hasHostRewriteFunction := false
    compress := true }

/-- The image-optimizer behavior template of `createAdditionalBehaviors`
(no response headers policy in this branch of the source). -/
def imageOptimizerBehaviorRule : BehaviorRule :=
  { target := .imageOptimizer
    allowedMethods := .allowGetHeadOptions
    cachePolicy := .serverCachePolicy
    hasOriginRequestPolicy := true
    hasResponseHeadersPolicy := false
    hasHostRewriteFunction := true
    compress := true }

/-- The split-function behavior template of `createAdditionalBehaviors`. -/
def splitFunctionBehaviorRule (key : String) : BehaviorRule :=
  { target := .server key
    allowedMethods := .allowAll
    cachePolicy := .serverCachePolicy
    hasOriginRequestPolicy := true
    hasResponseHeadersPolicy := true
    hasHostRewriteFunction := true
    compress := true }

/-- One iteration of the `createAdditionalBehaviors` loop: catch-all
patterns are skipped (handled by the default behavior); `'s3'` and
`'imageOptimizer'` get their templates; any other truthy origin name is
looked up among the server origins and silently skipped when absent;
a missing or empty origin name emits nothing. -/
def behaviorToRule (serverKeys : List String) (b : OpenNextBehavior) :
    Option (String × BehaviorRule) :=
  if b.pattern == "*" || b.pattern == "/*" then none
  else
    match b.origin with
    | none => none
    | some name =>
      if name == "s3" then some (b.pattern, s3BehaviorRule)
      else if name == "imageOptimizer" then
        some (b.pattern, imageOptimizerBehaviorRule)
      else if !(name == "") && serverKeys.contains name then
        some (b.pattern, splitFunctionBehaviorRule name)
      else none

/-- `createAdditionalBehaviors`: the manifest's behavior list, in order,
through `behaviorToRule`.  The pattern is the record key of the source's
`additionalBehaviors` object. -/
def createAdditionalBehaviors (behaviors : List OpenNextBehavior)
    (serverKeys : List String) : List (String × BehaviorRule) :=
  behaviors.filterMap (behaviorToRule serverKeys)

/-- The keys of `serverOrigins` in `DistributionComponent` — the keys of
`serverFunctionUrls`. -/
def serverOriginKeysOf (m : OpenNextManifest) : List String :=
  (serverFunctionUrlsOf m).map Prod.fst

/-! ## The whole build (`OpenNextCdk` constructor) -/

/-- The resource-graph output of one `OpenNextCdk` build, restricted to
the resources and properties the claims exercise.  WAF, DNS, alarms,
warmer, log pipeline and asset deployment take no branching input from
the manifest beyond what is modelled here. -/
structure BuildOutput where
  tagCacheTable : Option String
  revalidation : RevalNode
  seeder : Option SeederNode
  edgeFunctionsWarning : Bool
  defaultServer : ServerNode
  splitServers : List (String × ServerNode)
  defaultOriginMap : Option (List (String × String))
  defaultRule : BehaviorRule
  additionalRules : List (String × BehaviorRule)
deriving DecidableEq, Repr

/-- The `OpenNextCdk` constructor as a pure function of the validated
manifest, the caller props, and the wall clock (`Date.now()`, consumed
only by the seeder's re-trigger property). -/
def openNextCdkBuild (m : OpenNextManifest) (p : OpenNextCdkProps)
    (now : Nat) : BuildOutput :=
  { tagCacheTable := tagTableOf m p
    revalidation :=
      revalidationComponent (tagTableOf m p) (callerEnvOf p.revalidation)
    seeder :=
      seederComponent (tagTableOf m p) (hasInitializationFunction m)
        (callerEnvOf p.initializationFunction) now
    edgeFunctionsWarning := edgeWarningOf m
    defaultServer := defaultServerOf m p
    splitServers := splitServersOf m p
    defaultOriginMap := defaultOriginMapOf m
    defaultRule := serverBehaviorOptionsRule
    additionalRules :=
      createAdditionalBehaviors m.behaviors (serverOriginKeysOf m) }

/-! ## Helper lemmas about environment lookup -/

theorem optOr_some (a : String) (o : Option String) :
    (Option.some a).or o = some a := rfl

theorem optOr_none (o : Option String) : (Option.none).or o = o := by
  cases o <;> rfl

theorem optOr_none_right (o : Option String) : o.or none = o := by
  cases o <;> rfl

theorem optOr_assoc (a b c : Option String) :
    (a.or b).or c = a.or (b.or c) := by
  cases a <;> cases b <;> rfl

/-- Lookup distributes over append, later bindings first. -/
theorem envGet_append (a b : List (String × String)) (k : String) :
    envGet (a ++ b) k = (envGet b k).or (envGet a k) := by
  induction a with
  | nil => simp [envGet, optOr_none_right]
  | cons e a ih =>
    have h : envGet ((e :: a) ++ b) k =
        (envGet (a ++ b) k).or (if e.1 == k then some e.2 else none) := rfl
    rw [h, ih, optOr_assoc]
    rfl

/-- In a server function environment, `REVALIDATION_QUEUE_URL` is bound to
the queue URL as long as the caller environment does not rebind it. -/
theorem sfc_queue_url (tt : Option String) (dic : Bool)
    (fnEnv : List (String × String))
    (h : envGet fnEnv "REVALIDATION_QUEUE_URL" = none) :
    envGet (serverFunctionComponent tt dic fnEnv).env "REVALIDATION_QUEUE_URL" =
      some revalidationQueueUrl := by
  cases tt <;> cases dic <;>
    simp [serverFunctionComponent, envGet_append, envGet, h, optOr_some,
      optOr_none, optOr_none_right]

/-- In a server function environment, `REVALIDATION_QUEUE_REGION` is bound
to the stack region as long as the caller environment does not rebind it. -/
theorem sfc_queue_region (tt : Option String) (dic : Bool)
    (fnEnv : List (String × String))
    (h : envGet fnEnv "REVALIDATION_QUEUE_REGION" = none) :
    envGet (serverFunctionComponent tt dic fnEnv).env
      "REVALIDATION_QUEUE_REGION" = some stackRegion := by
  cases tt <;> cases dic <;>
    simp [serverFunctionComponent, envGet_append, envGet, h, optOr_some,
      optOr_none, optOr_none_right]

/-- With the incremental cache disabled, a server function's environment
binds `CACHE_BUCKET_NAME` only if the caller environment does. -/
theorem sfc_bucket_name_none (tt : Option String)
    (fnEnv : List (String × String)) :
    envGet (serverFunctionComponent tt true fnEnv).env "CACHE_BUCKET_NAME" =
      envGet fnEnv "CACHE_BUCKET_NAME" := by
  cases tt <;>
    simp [serverFunctionComponent, envGet_append, envGet, optOr_some,
      optOr_none, optOr_none_right]

/-- With the incremental cache disabled, a server function's environment
binds `CACHE_BUCKET_KEY_PREFIX` only if the caller environment does. -/
theorem sfc_bucket_key_none (tt : Option String)
    (fnEnv : List (String × String)) :
    envGet (serverFunctionComponent tt true fnEnv).env
      "CACHE_BUCKET_KEY_PREFIX" = envGet fnEnv "CACHE_BUCKET_KEY_PREFIX" := by
  cases tt <;>
    simp [serverFunctionComponent, envGet_append, envGet, optOr_some,
      optOr_none, optOr_none_right]

/-- With the incremental cache disabled, a server function's environment
binds `CACHE_BUCKET_REGION` only if the caller environment does. -/
theorem sfc_bucket_region_none (tt : Option String)
    (fnEnv : List (String × String)) :
    envGet (serverFunctionComponent tt true fnEnv).env "CACHE_BUCKET_REGION" =
      envGet fnEnv "CACHE_BUCKET_REGION" := by
  cases tt <;>
    simp [serverFunctionComponent, envGet_append, envGet, optOr_some,
      optOr_none, optOr_none_right]

/-- Without a tag cache table, a server function's environment binds
`CACHE_DYNAMO_TABLE` only if the caller environment does. -/
theorem sfc_table_none (dic : Bool) (fnEnv : List (String × String)) :
    envGet (serverFunctionComponent none dic fnEnv).env "CACHE_DYNAMO_TABLE" =
      envGet fnEnv "CACHE_DYNAMO_TABLE" := by
  cases dic <;>
    simp [serverFunctionComponent, envGet_append, envGet, optOr_some,
      optOr_none, optOr_none_right]

/-- `OPEN_NEXT_ORIGIN` is never bound by `serverFunctionComponent` itself;
only the caller environment can bind it at this stage. -/
theorem sfc_open_next_origin (tt : Option String) (dic : Bool)
    (fnEnv : List (String × String)) :
    envGet (serverFunctionComponent tt dic fnEnv).env "OPEN_NEXT_ORIGIN" =
      envGet fnEnv "OPEN_NEXT_ORIGIN" := by
  cases tt <;> cases dic <;>
    simp [serverFunctionComponent, envGet_append, envGet, optOr_some,
      optOr_none, optOr_none_right]

/-! ## Path normalization lemmas (C8) -/

theorem isPrefixOf_append_self (pre t : List Char) :
    pre.isPrefixOf (pre ++ t) = true := by
  induction pre with
  | nil => simp [List.isPrefixOf]
  | cons a as ih => simp [List.isPrefixOf, ih]

theorem append_drop_of_isPrefixOf :
    ∀ (pre l : List Char), pre.isPrefixOf l = true →
      pre ++ l.drop pre.length = l := by
  intro pre
  induction pre with
  | nil => intro l _; simp
  | cons a as ih =>
    intro l h
    cases l with
    | nil => simp [List.isPrefixOf] at h
    | cons b bs =>
      simp only [List.isPrefixOf, Bool.and_eq_true, beq_iff_eq] at h
      obtain ⟨hab, h'⟩ := h
      subst hab
      simpa using ih bs h'

/-- Claim C8 (amended): path normalization is idempotent for every path
that does not begin with a doubled `.open-next/.open-next/` prefix — in
particular for every singly build-root-prefixed path and every unprefixed
path.  (As stated over ALL strings the claim fails: stripping the literal
prefix once is not idempotent on doubly-prefixed paths, see the
counterexample.) -/
theorem c8_amended_idempotent (p : String)
    (h : ".open-next/.open-next/".data.isPrefixOf p.data = false) :
    normalizeBundlePath (normalizeBundlePath p) = normalizeBundlePath p := by
  unfold normalizeBundlePath
  by_cases h1 : ".open-next/".data.isPrefixOf p.data = true
  · rw [if_pos h1]
    have hlen : ".open-next/".length = (".open-next/".data).length := rfl
    by_cases h2 : ".open-next/".data.isPrefixOf
        ((String.mk (p.data.drop ".open-next/".length)).data) = true
    · exfalso
      have e1 := append_drop_of_isPrefixOf _ _ h1
      have e2 := append_drop_of_isPrefixOf _ _ h2
      have hd : ".open-next/.open-next/".data =
          ".open-next/".data ++ ".open-next/".data := by decide
      rw [hd] at h
      have : (".open-next/".data ++ ".open-next/".data).isPrefixOf p.data = true := by
        have : p.data = (".open-next/".data ++ ".open-next/".data) ++
            ((p.data.drop ".open-next/".length).drop ".open-next/".length) := by
          conv_lhs => rw [← e1]
          simp only [List.append_assoc]
          congr 1
          exact (e2.symm)
        rw [this]
        exact isPrefixOf_append_self _ _
      rw [this] at h
      cases h
    · rw [if_neg h2]
  · rw [if_neg h1, if_neg h1]

/-- Claim C8 counterexample: for the doubly-prefixed path
`.open-next/.open-next/a`, normalizing twice (`a`) differs from
normalizing once (`.open-next/a`), so normalization is NOT idempotent for
every string path. -/
theorem c8_counterexample :
    normalizeBundlePath (normalizeBundlePath ".open-next/.open-next/a") ≠
      normalizeBundlePath ".open-next/.open-next/a" := by
  decide

/-- Claim C8 witness: the amended idempotence theorem applied to the
build-root-prefixed path `.open-next/assets`. -/
theorem c8_witness :
    (".open-next/.open-next/".data.isPrefixOf ".open-next/assets".data = false) ∧
      normalizeBundlePath (normalizeBundlePath ".open-next/assets") =
        normalizeBundlePath ".open-next/assets" :=
  ⟨by decide, c8_amended_idempotent ".open-next/assets" (by decide)⟩

/-! ## Manifest reader failure conditions (C7) -/

theorem jsonGet_null (k : String) : (Json.null).get k = none := rfl

theorem jsonGet_bool (b : Bool) (k : String) : (Json.bool b).get k = none := rfl

theorem jsonGet_num (n : Int) (k : String) : (Json.num n).get k = none := rfl

theorem jsonGet_str (s k : String) : (Json.str s).get k = none := rfl

theorem jsonGet_arr (es : List Json) (k : String) :
    (Json.arr es).get k = none := rfl

/-- The claim's failure conditions for a parsed manifest JSON value:
`origins` missing or not a mapping, `behaviors` missing or not a list, or
`origins.default` absent (the source's JavaScript falsiness test). -/
def claimFailParsedB (j : Json) : Bool :=
  (match j.get "origins" with
   | some (.obj _) => false
   | _ => true) ||
  (match j.get "behaviors" with
   | some (.arr _) => false
   | _ => true) ||
  (match j.get "origins" with
   | some o => !(Json.truthyOpt (o.get "default"))
   | none => true)

/-- The claim's failure conditions for a read attempt: file absent, JSON
unparsable, or one of the validation conditions. -/
def claimFailB : ReadInput → Bool
  | .absent => true
  | .unparsable => true
  | .parsed j => claimFailParsedB j

/-- The source's three sequential validation checks fail (somewhere)
exactly when the claim's conditions hold. -/
theorem codeFail_eq_claimFail (j : Json) :
    (originsInvalidB j || behaviorsInvalidB j || defaultMissingB j) =
      claimFailParsedB j := by
  cases ho : j.get "origins" with
  | none =>
    simp [originsInvalidB, behaviorsInvalidB, defaultMissingB,
      claimFailParsedB, ho]
  | some v =>
    cases hb : j.get "behaviors" with
    | none =>
      cases v <;>
        simp [originsInvalidB, behaviorsInvalidB, defaultMissingB,
          claimFailParsedB, ho, hb, Json.truthy, Json.typeofObject,
          Json.isArr, Json.truthyOpt, jsonGet_null, jsonGet_bool,
          jsonGet_num, jsonGet_str, jsonGet_arr]
    | some w =>
      cases v <;> cases w <;>
        simp [originsInvalidB, behaviorsInvalidB, defaultMissingB,
          claimFailParsedB, ho, hb, Json.truthy, Json.typeofObject,
          Json.isArr, Json.truthyOpt, jsonGet_null, jsonGet_bool,
          jsonGet_num, jsonGet_str, jsonGet_arr]

/-- Claim C7: `readManifest` fails exactly when the manifest file is
absent, the JSON is unparsable, `origins` is missing or not a mapping,
`behaviors` is missing or not a list, or `origins.default` is absent;
otherwise it returns the parsed manifest unchanged.  The file-absent
error message instructs the caller to run the OpenNext build first. -/
theorem c7_readManifest_fails_iff (path : String) (inp : ReadInput) :
    (exceptIsOk (readManifestModel path inp) = !claimFailB inp) ∧
    (∀ j, inp = .parsed j → claimFailB inp = false →
      readManifestModel path inp = .ok j) ∧
    (readManifestModel path .absent =
      .error (.notFound ("OpenNext manifest not found at " ++
        manifestPathOf path ++
        ". Run `npx @opennextjs/aws build` before `cdk synth`."))) := by
  refine ⟨?_, ?_, rfl⟩
  · cases inp with
    | absent => rfl
    | unparsable => rfl
    | parsed j =>
      show exceptIsOk (readManifestModel path (.parsed j)) =
        !claimFailParsedB j
      rw [← codeFail_eq_claimFail]
      unfold readManifestModel exceptIsOk
      cases h1 : originsInvalidB j <;> cases h2 : behaviorsInvalidB j <;>
        cases h3 : defaultMissingB j <;> simp [h1, h2, h3]
  · intro j hinp hfail
    subst hinp
    show readManifestModel path (.parsed j) = .ok j
    have hcode : (originsInvalidB j || behaviorsInvalidB j ||
        defaultMissingB j) = false := by
      rw [codeFail_eq_claimFail]; exact hfail
    simp only [Bool.or_eq_false_iff] at hcode
    obtain ⟨⟨h1, h2⟩, h3⟩ := hcode
    unfold readManifestModel
    simp [h1, h2, h3]

/-- Claim C7 witness: the theorem applied to a concrete well-formed
manifest JSON (returned unchanged) at a concrete path. -/
theorem c7_witness :
    readManifestModel "app/.open-next"
      (.parsed (Json.obj
        [("origins",
          Json.obj [("default", Json.obj [("type", Json.str "function")])]),
         ("behaviors", Json.arr [])])) =
      .ok (Json.obj
        [("origins",
          Json.obj [("default", Json.obj [("type", Json.str "function")])]),
         ("behaviors", Json.arr [])]) :=
  (c7_readManifest_fails_iff "app/.open-next" _).2.1 _ rfl (by rfl)

/-! ## Behavior synthesis lemmas (C1, C6) -/

/-- A rule emitted by `behaviorToRule` carries its behavior's pattern,
which is never the catch-all. -/
theorem behaviorToRule_not_catchall (keys : List String)
    (b : OpenNextBehavior) (pr : String × BehaviorRule)
    (h : behaviorToRule keys b = some pr) :
    (pr.1 == "*") = false ∧ (pr.1 == "/*") = false := by
  unfold behaviorToRule at h
  split at h
  · cases h
  · rename_i hc
    have hc' : (b.pattern == "*") = false ∧ (b.pattern == "/*") = false := by
      simpa using hc
    split at h
    · cases h
    · split at h
      · cases h
        exact hc'
      · split at h
        · cases h
          exact hc'
        · split at h
          · cases h
            exact hc'
          · cases h

/-- No rule produced by `createAdditionalBehaviors` has a catch-all
pattern. -/
theorem createAdditionalBehaviors_no_catchall
    (behaviors : List OpenNextBehavior) (keys : List String) :
    (createAdditionalBehaviors behaviors keys).all
      (fun r => !(r.1 == "*") && !(r.1 == "/*")) = true := by
  induction behaviors with
  | nil => rfl
  | cons b bs ih =>
    unfold createAdditionalBehaviors at ih ⊢
    cases hb : behaviorToRule keys b with
    | none => simpa [List.filterMap_cons, hb] using ih
    | some pr =>
      obtain ⟨h1, h2⟩ := behaviorToRule_not_catchall keys b pr hb
      simp [List.filterMap_cons, hb, h1, h2, ih]

/-- Claim C1: for every manifest and caller props, the default rule is
bound to the default server function, allows all HTTP methods, and
carries the server cache policy, the origin request policy, the response
headers policy and the host-rewrite function association; and no behavior
entry whose pattern is the catch-all (`*` or `/*`) produces an
additional rule. -/
theorem c1_default_rule (m : OpenNextManifest) (p : OpenNextCdkProps)
    (now : Nat) :
    ((openNextCdkBuild m p now).defaultRule.target =
      RuleTarget.server "default") ∧
    ((openNextCdkBuild m p now).defaultRule.allowedMethods =
      AllowedMethods.allowAll) ∧
    ((openNextCdkBuild m p now).defaultRule.cachePolicy =
      RuleCachePolicy.serverCachePolicy) ∧
    ((openNextCdkBuild m p now).defaultRule.hasOriginRequestPolicy = true) ∧
    ((openNextCdkBuild m p now).defaultRule.hasResponseHeadersPolicy = true) ∧
    ((openNextCdkBuild m p now).defaultRule.hasHostRewriteFunction = true) ∧
    ((openNextCdkBuild m p now).additionalRules.all
      (fun r => !(r.1 == "*") && !(r.1 == "/*")) = true) :=
  ⟨rfl, rfl, rfl, rfl, rfl, rfl,
    createAdditionalBehaviors_no_catchall m.behaviors (serverOriginKeysOf m)⟩

/-- A positive length test is the negation of `isEmpty`. -/
theorem decide_lt_length_eq_not_isEmpty {α : Type} (l : List α) :
    (decide (0 < l.length)) = !l.isEmpty := by
  cases l <;> simp

/-- Claim C6: the synthesized additional rules are exactly the manifest's
behavior entries through `behaviorToRule` (a total function — dropping is
silent, never an error); every behavior entry whose origin reference does
not resolve to a known origin role (`s3`, `imageOptimizer`, or a created
server origin) — in particular one referencing an edge function — is
dropped with no rule emitted; and the single warning annotation is raised
exactly when the manifest's `edgeFunctions` map is non-empty, independent
of per-behavior dropping. -/
theorem c6_dropped_behaviors (m : OpenNextManifest) (p : OpenNextCdkProps)
    (now : Nat) :
    ((openNextCdkBuild m p now).additionalRules =
      m.behaviors.filterMap (behaviorToRule (serverOriginKeysOf m))) ∧
    (∀ b : OpenNextBehavior,
      (∀ name, b.origin = some name →
        (name == "s3") = false ∧ (name == "imageOptimizer") = false ∧
        (serverOriginKeysOf m).contains name = false) →
      behaviorToRule (serverOriginKeysOf m) b = none) ∧
    ((openNextCdkBuild m p now).edgeFunctionsWarning =
      !((m.edgeFunctions.getD []).isEmpty)) := by
  refine ⟨rfl, ?_, ?_⟩
  · intro b hb
    unfold behaviorToRule
    split
    · rfl
    · cases horig : b.origin with
      | none => rfl
      | some name =>
        obtain ⟨h1, h2, h3⟩ := hb name horig
        have h4 : ¬ name ∈ serverOriginKeysOf m := by simpa using h3
        simp [h1, h2, h3, h4]
  · show edgeWarningOf m = !((m.edgeFunctions.getD []).isEmpty)
    unfold edgeWarningOf
    cases he : m.edgeFunctions with
    | none => rfl
    | some keys => simp [decide_lt_length_eq_not_isEmpty]

/-- Claim C6 witness: a behavior whose origin references an edge function
key that is no known origin role is dropped, and the warning fires for a
manifest with one edge function entry. -/
theorem c6_witness :
    behaviorToRule
      (serverOriginKeysOf
        { origins := [("default", { type := "function" })]
          behaviors := [{ pattern := "edge/*", origin := some "edgeFn" }]
          edgeFunctions := some ["edgeFn"] })
      { pattern := "edge/*", origin := some "edgeFn" } = none ∧
    (openNextCdkBuild
      { origins := [("default", { type := "function" })]
        behaviors := [{ pattern := "edge/*", origin := some "edgeFn" }]
        edgeFunctions := some ["edgeFn"] } {} 0).edgeFunctionsWarning = true :=
  ⟨(c6_dropped_behaviors
      { origins := [("default", { type := "function" })]
        behaviors := [{ pattern := "edge/*", origin := some "edgeFn" }]
        edgeFunctions := some ["edgeFn"] } {} 0).2.1 _
      (fun name hn => by
        cases hn
        exact ⟨rfl, rfl, rfl⟩),
   ((c6_dropped_behaviors
      { origins := [("default", { type := "function" })]
        behaviors := [{ pattern := "edge/*", origin := some "edgeFn" }]
        edgeFunctions := some ["edgeFn"] } {} 0).2.2).trans rfl⟩

/-! ## Tag cache and seeder lemmas (C3, C4) -/

/-- The tag cache table exists exactly when the resolved flag does not
disable it (the caller's existing-table handle also counts as a table). -/
theorem tagTable_isSome (m : OpenNextManifest) (p : OpenNextCdkProps) :
    (tagTableOf m p).isSome = !(tagCacheDisabledOf m p) := by
  unfold tagTableOf effectiveTagCacheOptions tagCacheTableComponent
  by_cases hd : tagCacheDisabledOf m p = true
  · rw [if_pos hd, hd]
    rfl
  · have hd' : tagCacheDisabledOf m p = false := Bool.eq_false_iff.mpr hd
    rw [if_neg hd, hd']
    cases htc : p.tagCache with
    | none => rfl
    | some o =>
      have hodis : (o.disabled == some true) = false := by
        have := hd'
        unfold tagCacheDisabledOf at this
        rw [htc] at this
        simp only [Bool.or_eq_false_iff] at this
        exact this.1
      have hgetd : o.disabled.getD false = false := by
        cases hob : o.disabled with
        | none => rfl
        | some b =>
          rw [hob] at hodis
          cases b
          · rfl
          · simp at hodis
      simp only [hgetd]
      cases o.existingTable <;> rfl

/-- When the resolved flag disables the tag cache, no table handle is
produced. -/
theorem tagTable_none_of_disabled (m : OpenNextManifest)
    (p : OpenNextCdkProps) (hd : tagCacheDisabledOf m p = true) :
    tagTableOf m p = none := by
  have h := tagTable_isSome m p
  rw [hd] at h
  exact Option.not_isSome_iff_eq_none.mp (by simp [h])

/-- The seeder exists exactly when a table handle exists and the manifest
declares an initialization function. -/
theorem seederComponent_isSome (tt : Option String) (hi : Bool)
    (fnEnv : List (String × String)) (now : Nat) :
    (seederComponent tt hi fnEnv now).isSome = (tt.isSome && hi) := by
  cases tt with
  | none => rfl
  | some tbl => cases hi <;> rfl

/-- Claim C3: a tag-cache seeder resource exists if and only if the tag
cache is not disabled (from either the caller override or the manifest
flag) and the manifest's `additionalProps.initializationFunction` is
non-null. -/
theorem c3_seeder_iff (m : OpenNextManifest) (p : OpenNextCdkProps)
    (now : Nat) :
    (openNextCdkBuild m p now).seeder.isSome =
      (!(tagCacheDisabledOf m p) && hasInitializationFunction m) := by
  show (seederComponent (tagTableOf m p) (hasInitializationFunction m)
      (callerEnvOf p.initializationFunction) now).isSome = _
  rw [seederComponent_isSome, tagTable_isSome]

/-! ## More environment lemmas (C4, C5) -/

/-- The deferred `OPEN_NEXT_ORIGIN` injection binds no other variable. -/
theorem envGet_openNextOriginEnv (m : OpenNextManifest) (k : String)
    (hk : ("OPEN_NEXT_ORIGIN" == k) = false) :
    envGet (openNextOriginEnvOf m) k = none := by
  unfold openNextOriginEnvOf
  cases defaultOriginMapOf m <;> simp [envGet, hk]

/-- Without a tag cache table, the revalidation consumer's environment
binds `CACHE_DYNAMO_TABLE` only if the caller environment does. -/
theorem reval_table_none (fnEnv : List (String × String)) :
    envGet (revalidationComponent none fnEnv).env "CACHE_DYNAMO_TABLE" =
      envGet fnEnv "CACHE_DYNAMO_TABLE" := by
  simp [revalidationComponent, envGet_append, envGet, optOr_some, optOr_none,
    optOr_none_right]

/-- With no caller override, the revalidation consumer's environment binds
all three cache bucket variables, whatever the table handle is. -/
theorem reval_bucket_vars (tt : Option String) :
    envGet (revalidationComponent tt []).env "CACHE_BUCKET_NAME" =
      some assetsBucketName ∧
    envGet (revalidationComponent tt []).env "CACHE_BUCKET_KEY_PREFIX" =
      some "_cache" ∧
    envGet (revalidationComponent tt []).env "CACHE_BUCKET_REGION" =
      some stackRegion := by
  refine ⟨?_, ?_, ?_⟩ <;> cases tt <;>
    simp [revalidationComponent, envGet_append, envGet, optOr_some,
      optOr_none, optOr_none_right]

def c4Manifest : OpenNextManifest :=
  { origins := [("default", { type := "function" })]
    behaviors := [{ pattern := "*", origin := some "default" }] }

def c4Props : OpenNextCdkProps :=
  { tagCache := some { disabled := some true }
    serverFunction :=
      some { environment := [("CACHE_DYNAMO_TABLE", "injected-by-caller")] } }

/-- Claim C4 counterexample: with the tag cache disabled, a caller that
passes `CACHE_DYNAMO_TABLE` through `serverFunction.environment` still
gets the variable on the default server function (the caller environment
is spread last), so the claim fails as stated over EVERY input. -/
theorem c4_counterexample :
    tagCacheDisabledOf c4Manifest c4Props = true ∧
    (openNextCdkBuild c4Manifest c4Props 0).tagCacheTable = none ∧
    envGet (openNextCdkBuild c4Manifest c4Props 0).defaultServer.env
      "CACHE_DYNAMO_TABLE" = some "injected-by-caller" :=
  ⟨rfl, rfl, rfl⟩

/-- Claim C4 (amended): when the tag cache is disabled (from either the
caller override or the manifest flag) and the caller does not itself
inject `CACHE_DYNAMO_TABLE` through a function-options environment, no
table resource is produced and no function of the graph (default or split
server, revalidation consumer, seeder) carries the variable. -/
theorem c4_amended_no_table_var (m : OpenNextManifest)
    (p : OpenNextCdkProps) (now : Nat)
    (hd : tagCacheDisabledOf m p = true)
    (h1 : envGet (callerEnvOf p.serverFunction) "CACHE_DYNAMO_TABLE" = none)
    (h2 : ∀ e ∈ p.splitFunctions,
      envGet e.2.environment "CACHE_DYNAMO_TABLE" = none)
    (h3 : envGet (callerEnvOf p.revalidation) "CACHE_DYNAMO_TABLE" = none) :
    ((openNextCdkBuild m p now).tagCacheTable = none) ∧
    (envGet (openNextCdkBuild m p now).defaultServer.env
      "CACHE_DYNAMO_TABLE" = none) ∧
    (∀ s ∈ (openNextCdkBuild m p now).splitServers,
      envGet s.2.env "CACHE_DYNAMO_TABLE" = none) ∧
    (envGet (openNextCdkBuild m p now).revalidation.env
      "CACHE_DYNAMO_TABLE" = none) ∧
    ((openNextCdkBuild m p now).seeder = none) := by
  have htn : tagTableOf m p = none := tagTable_none_of_disabled m p hd
  refine ⟨htn, ?_, ?_, ?_, ?_⟩
  · show envGet (defaultServerOf m p).env "CACHE_DYNAMO_TABLE" = none
    unfold defaultServerOf appendEnv
    rw [htn, envGet_append, sfc_table_none, h1,
      envGet_openNextOriginEnv m _ (by rfl)]
    rfl
  · intro s hs
    have hs' : s ∈ splitServersOf m p := hs
    unfold splitServersOf at hs'
    obtain ⟨k, hk, rfl⟩ := List.mem_map.mp hs'
    show envGet (serverFunctionComponent (tagTableOf m p)
      (disableIncrementalCacheOf m)
      (callerEnvOf (lookupOpts p.splitFunctions k))).env
      "CACHE_DYNAMO_TABLE" = none
    rw [htn, sfc_table_none]
    cases hl : lookupOpts p.splitFunctions k with
    | none => rfl
    | some opts =>
      unfold lookupOpts at hl
      cases hf : p.splitFunctions.find? (fun e => e.1 == k) with
      | none => rw [hf] at hl; cases hl
      | some e =>
        rw [hf] at hl
        have he : e ∈ p.splitFunctions := List.mem_of_find?_eq_some hf
        have hee : e.2 = opts := by simpa using hl
        show envGet opts.environment "CACHE_DYNAMO_TABLE" = none
        rw [← hee]
        exact h2 e he
  · show envGet (revalidationComponent (tagTableOf m p)
      (callerEnvOf p.revalidation)).env "CACHE_DYNAMO_TABLE" = none
    rw [htn, reval_table_none, h3]
  · show seederComponent (tagTableOf m p) (hasInitializationFunction m)
      (callerEnvOf p.initializationFunction) now = none
    rw [htn]
    rfl

def c4WitnessProps : OpenNextCdkProps :=
  { tagCache := some { disabled := some true } }

/-- Claim C4 witness: the amended theorem applied to a manifest-only
build with the caller tag-cache override disabling the table and no
caller environment overrides. -/
theorem c4_witness :
    ((openNextCdkBuild c4Manifest c4WitnessProps 0).tagCacheTable = none) ∧
    (envGet (openNextCdkBuild c4Manifest c4WitnessProps 0).defaultServer.env
      "CACHE_DYNAMO_TABLE" = none) ∧
    ((openNextCdkBuild c4Manifest c4WitnessProps 0).seeder = none) :=
  ⟨(c4_amended_no_table_var c4Manifest c4WitnessProps 0 rfl rfl
      (fun e he => absurd he (List.not_mem_nil e)) rfl).1,
   (c4_amended_no_table_var c4Manifest c4WitnessProps 0 rfl rfl
      (fun e he => absurd he (List.not_mem_nil e)) rfl).2.1,
   (c4_amended_no_table_var c4Manifest c4WitnessProps 0 rfl rfl
      (fun e he => absurd he (List.not_mem_nil e)) rfl).2.2.2.2⟩

/-! ## Incremental cache gating (C5) -/

/-- Claim C5: with `additionalProps.disableIncrementalCache == true` and
no caller function overrides, every default/split server function omits
the three cache-bucket variables and the bucket read-write grant but
still receives the revalidation-queue URL and region variables, while the
revalidation consumer unconditionally receives the cache-bucket variables
and the bucket read-write grant. -/
theorem c5_incremental_gating (m : OpenNextManifest) (p : OpenNextCdkProps)
    (now : Nat)
    (hdic : disableIncrementalCacheOf m = true)
    (hs : p.serverFunction = none)
    (hsp : p.splitFunctions = [])
    (hr : p.revalidation = none) :
    ((envGet (openNextCdkBuild m p now).defaultServer.env
        "CACHE_BUCKET_NAME" = none) ∧
     (envGet (openNextCdkBuild m p now).defaultServer.env
        "CACHE_BUCKET_KEY_PREFIX" = none) ∧
     (envGet (openNextCdkBuild m p now).defaultServer.env
        "CACHE_BUCKET_REGION" = none) ∧
     ((openNextCdkBuild m p now).defaultServer.bucketReadWrite = false) ∧
     (envGet (openNextCdkBuild m p now).defaultServer.env
        "REVALIDATION_QUEUE_URL" = some revalidationQueueUrl) ∧
     (envGet (openNextCdkBuild m p now).defaultServer.env
        "REVALIDATION_QUEUE_REGION" = some stackRegion)) ∧
    (∀ s ∈ (openNextCdkBuild m p now).splitServers,
      (envGet s.2.env "CACHE_BUCKET_NAME" = none) ∧
      (envGet s.2.env "CACHE_BUCKET_KEY_PREFIX" = none) ∧
      (envGet s.2.env "CACHE_BUCKET_REGION" = none) ∧
      (s.2.bucketReadWrite = false) ∧
      (envGet s.2.env "REVALIDATION_QUEUE_URL" = some revalidationQueueUrl) ∧
      (envGet s.2.env "REVALIDATION_QUEUE_REGION" = some stackRegion)) ∧
    ((envGet (openNextCdkBuild m p now).revalidation.env
        "CACHE_BUCKET_NAME" = some assetsBucketName) ∧
     (envGet (openNextCdkBuild m p now).revalidation.env
        "CACHE_BUCKET_KEY_PREFIX" = some "_cache") ∧
     (envGet (openNextCdkBuild m p now).revalidation.env
        "CACHE_BUCKET_REGION" = some stackRegion) ∧
     ((openNextCdkBuild m p now).revalidation.bucketReadWrite = true)) := by
  refine ⟨⟨?_, ?_, ?_, ?_, ?_, ?_⟩, ?_, ?_, ?_, ?_, ?_⟩
  · show envGet (defaultServerOf m p).env "CACHE_BUCKET_NAME" = none
    unfold defaultServerOf appendEnv
    rw [envGet_append, envGet_openNextOriginEnv m _ (by rfl), hdic, hs,
      optOr_none, sfc_bucket_name_none]
    rfl
  · show envGet (defaultServerOf m p).env "CACHE_BUCKET_KEY_PREFIX" = none
    unfold defaultServerOf appendEnv
    rw [envGet_append, envGet_openNextOriginEnv m _ (by rfl), hdic, hs,
      optOr_none, sfc_bucket_key_none]
    rfl
  · show envGet (defaultServerOf m p).env "CACHE_BUCKET_REGION" = none
    unfold defaultServerOf appendEnv
    rw [envGet_append, envGet_openNextOriginEnv m _ (by rfl), hdic, hs,
      optOr_none, sfc_bucket_region_none]
    rfl
  · show (!(disableIncrementalCacheOf m)) = false
    rw [hdic]
    rfl
  · show envGet (defaultServerOf m p).env "REVALIDATION_QUEUE_URL" =
      some revalidationQueueUrl
    unfold defaultServerOf appendEnv
    rw [envGet_append, envGet_openNextOriginEnv m _ (by rfl), optOr_none]
    exact sfc_queue_url _ _ _ (by rw [hs]; rfl)
  · show envGet (defaultServerOf m p).env "REVALIDATION_QUEUE_REGION" =
      some stackRegion
    unfold defaultServerOf appendEnv
    rw [envGet_append, envGet_openNextOriginEnv m _ (by rfl), optOr_none]
    exact sfc_queue_region _ _ _ (by rw [hs]; rfl)
  · intro s hsm
    have hs' : s ∈ splitServersOf m p := hsm
    unfold splitServersOf at hs'
    obtain ⟨k, hk, rfl⟩ := List.mem_map.mp hs'
    rw [hsp]
    refine ⟨?_, ?_, ?_, ?_, ?_, ?_⟩
    · rw [show lookupOpts [] k = none from rfl]
      show envGet (serverFunctionComponent (tagTableOf m p)
        (disableIncrementalCacheOf m) []).env "CACHE_BUCKET_NAME" = none
      rw [hdic, sfc_bucket_name_none]
      rfl
    · rw [show lookupOpts [] k = none from rfl]
      show envGet (serverFunctionComponent (tagTableOf m p)
        (disableIncrementalCacheOf m) []).env "CACHE_BUCKET_KEY_PREFIX" = none
      rw [hdic, sfc_bucket_key_none]
      rfl
    · rw [show lookupOpts [] k = none from rfl]
      show envGet (serverFunctionComponent (tagTableOf m p)
        (disableIncrementalCacheOf m) []).env "CACHE_BUCKET_REGION" = none
      rw [hdic, sfc_bucket_region_none]
      rfl
    · show (!(disableIncrementalCacheOf m)) = false
      rw [hdic]
      rfl
    · rw [show lookupOpts [] k = none from rfl]
      exact sfc_queue_url _ _ _ rfl
    · rw [show lookupOpts [] k = none from rfl]
      exact sfc_queue_region _ _ _ rfl
  · show envGet (revalidationComponent (tagTableOf m p)
      (callerEnvOf p.revalidation)).env
      "CACHE_BUCKET_NAME" = some assetsBucketName
    rw [hr]
    exact (reval_bucket_vars _).1
  · show envGet (revalidationComponent (tagTableOf m p)
      (callerEnvOf p.revalidation)).env
      "CACHE_BUCKET_KEY_PREFIX" = some "_cache"
    rw [hr]
    exact (reval_bucket_vars _).2.1
  · show envGet (revalidationComponent (tagTableOf m p)
      (callerEnvOf p.revalidation)).env
      "CACHE_BUCKET_REGION" = some stackRegion
    rw [hr]
    exact (reval_bucket_vars _).2.2
  · rfl

def c5Manifest : OpenNextManifest :=
  { origins := [("default", { type := "function" })]
    behaviors := [{ pattern := "*", origin := some "default" }]
    additionalProps := some { disableIncrementalCache := some true } }

/-- Claim C5 witness: the theorem applied to a concrete manifest with the
incremental cache disabled and default caller props. -/
theorem c5_witness :
    (envGet (openNextCdkBuild c5Manifest {} 0).defaultServer.env
      "CACHE_BUCKET_NAME" = none) ∧
    (envGet (openNextCdkBuild c5Manifest {} 0).defaultServer.env
      "REVALIDATION_QUEUE_URL" = some revalidationQueueUrl) ∧
    (envGet (openNextCdkBuild c5Manifest {} 0).revalidation.env
      "CACHE_BUCKET_NAME" = some assetsBucketName) :=
  ⟨(c5_incremental_gating c5Manifest {} 0 rfl rfl rfl rfl).1.1,
   (c5_incremental_gating c5Manifest {} 0 rfl rfl rfl rfl).1.2.2.2.2.1,
   (c5_incremental_gating c5Manifest {} 0 rfl rfl rfl rfl).2.2.1⟩

/-! ## Split functions and the deferred origin map (C2, C10) -/

/-- Mapping first projections over key-tagged pairs recovers the keys. -/
theorem map_fst_pair {α β : Type} (f : α → β) (l : List α) :
    (l.map (fun k => (k, f k))).map Prod.fst = l := by
  induction l with
  | nil => rfl
  | cons a t ih => simp [ih]

/-- The split server functions are keyed exactly by the compute-typed
non-reserved origin keys, in manifest order. -/
theorem splitServers_keys (m : OpenNextManifest) (p : OpenNextCdkProps) :
    (splitServersOf m p).map Prod.fst = createdSplitKeysOf m := by
  unfold splitServersOf
  exact map_fst_pair _ _

/-- No created split key is a reserved key. -/
theorem createdSplitKeys_not_reserved (m : OpenNextManifest) :
    ∀ k ∈ createdSplitKeysOf m,
      k ≠ "default" ∧ k ≠ "s3" ∧ k ≠ "imageOptimizer" := by
  intro k hk
  unfold createdSplitKeysOf at hk
  have hk1 := (List.mem_filter.mp hk).1
  unfold getSplitFunctionOrigins at hk1
  have hk2 := (List.mem_filter.mp hk1).2
  have h5 : ¬ (k ∈ reservedOriginKeys) := by simpa using hk2
  simp only [reservedOriginKeys, List.mem_cons, List.not_mem_nil] at h5
  push_neg at h5
  exact ⟨h5.1, h5.2.1, by simpa using h5.2.2.1⟩

/-- The origin map injected into the default function is keyed exactly by
the created split keys (the `'default'` entry is filtered out). -/
theorem originMap_keys (m : OpenNextManifest) :
    (originMapOf m).map Prod.fst = createdSplitKeysOf m := by
  unfold originMapOf serverFunctionUrlsOf
  rw [List.filter_cons]
  rw [if_neg (by simp), List.filter_map]
  have hf : ((createdSplitKeysOf m).filter
      ((fun (e : String × String) => !(e.1 == "default")) ∘
        fun k => (k, functionUrlOf k))) = createdSplitKeysOf m := by
    rw [List.filter_eq_self]
    intro k hk
    have := (createdSplitKeys_not_reserved m k hk).1
    simpa using this
  rw [hf]
  exact map_fst_pair _ _

/-- The default server function's `OPEN_NEXT_ORIGIN` value is the encoded
deferred origin map when one is injected, and absent otherwise, as long
as the caller environment does not itself bind the variable. -/
theorem envGet_defaultServer_ono (m : OpenNextManifest)
    (p : OpenNextCdkProps)
    (h : envGet (callerEnvOf p.serverFunction) "OPEN_NEXT_ORIGIN" = none) :
    envGet (defaultServerOf m p).env "OPEN_NEXT_ORIGIN" =
      (defaultOriginMapOf m).map encodeOriginMap := by
  unfold defaultServerOf appendEnv openNextOriginEnvOf
  cases hm : defaultOriginMapOf m with
  | none =>
    rw [envGet_append]
    simp [envGet, optOr_none, sfc_open_next_origin, h]
  | some entries =>
    rw [envGet_append]
    simp [envGet, optOr_some, optOr_none, sfc_open_next_origin, h]

/-- Claim C10: the presence of the default function's `OPEN_NEXT_ORIGIN`
variable is decided by the existence of ANY non-reserved origin key, not
by split-function creation; when present, its decoded value maps exactly
the compute-typed non-reserved keys (possibly an empty object), never the
key `default`; with zero non-reserved keys the variable is absent. -/
theorem c10_origin_var_presence (m : OpenNextManifest)
    (p : OpenNextCdkProps) (now : Nat)
    (h : envGet (callerEnvOf p.serverFunction) "OPEN_NEXT_ORIGIN" = none) :
    ((openNextCdkBuild m p now).defaultOriginMap.isSome =
      !(getSplitFunctionOrigins m).isEmpty) ∧
    (envGet (openNextCdkBuild m p now).defaultServer.env "OPEN_NEXT_ORIGIN" =
      (openNextCdkBuild m p now).defaultOriginMap.map encodeOriginMap) ∧
    (∀ entries, (openNextCdkBuild m p now).defaultOriginMap = some entries →
      entries.map Prod.fst = createdSplitKeysOf m ∧
      ¬ ("default" ∈ entries.map Prod.fst)) := by
  refine ⟨?_, envGet_defaultServer_ono m p h, ?_⟩
  · show (defaultOriginMapOf m).isSome = !(getSplitFunctionOrigins m).isEmpty
    unfold defaultOriginMapOf
    cases hsk : getSplitFunctionOrigins m <;> simp [hsk]
  · intro entries he
    have he' : defaultOriginMapOf m = some entries := he
    unfold defaultOriginMapOf at he'
    split at he'
    · cases he'
      refine ⟨originMap_keys m, ?_⟩
      intro hmem
      rw [originMap_keys m] at hmem
      exact ((createdSplitKeys_not_reserved m _ hmem).1) rfl
    · cases he'

def c10Manifest : OpenNextManifest :=
  { origins :=
      [("default", { type := "function" }),
       ("staticExtra", { type := "s3" })]
    behaviors := [{ pattern := "*", origin := some "default" }] }

/-- Claim C10 witness: a manifest with one non-reserved key that is NOT
compute-typed still gets the variable (the encoded empty object), by the
theorem at default caller props. -/
theorem c10_witness :
    envGet (openNextCdkBuild c10Manifest {} 0).defaultServer.env
      "OPEN_NEXT_ORIGIN" =
      (openNextCdkBuild c10Manifest {} 0).defaultOriginMap.map
        encodeOriginMap :=
  (c10_origin_var_presence c10Manifest {} 0 rfl).2.1

def c2Manifest : OpenNextManifest :=
  { origins := [("default", { type := "function" })]
    behaviors := [{ pattern := "*", origin := some "default" }] }

/-- Claim C2 counterexample: a manifest whose origins are exactly the
reserved `default` key has N = 0 compute-typed non-reserved keys and zero
split resources, but the default function has NO `OPEN_NEXT_ORIGIN`
variable at all — so the claim's requirement that the variable
JSON-decode to an object with exactly those N keys fails as stated. -/
theorem c2_counterexample :
    getSplitFunctionOrigins c2Manifest = [] ∧
    (openNextCdkBuild c2Manifest {} 0).splitServers = [] ∧
    envGet (openNextCdkBuild c2Manifest {} 0).defaultServer.env
      "OPEN_NEXT_ORIGIN" = none :=
  ⟨rfl, rfl, rfl⟩

/-- Claim C2 (amended): the build produces exactly one split-compute
server function per compute-typed non-reserved origin key (in manifest
order); whenever at least one non-reserved origin key exists —
compute-typed or not — the default function's `OPEN_NEXT_ORIGIN`
variable is present and JSON-decodes to exactly those compute-typed
non-reserved keys, never including `default`; with no non-reserved keys
the variable is absent.  (The caller environment is assumed not to inject
the variable itself.) -/
theorem c2_amended_split_functions (m : OpenNextManifest)
    (p : OpenNextCdkProps) (now : Nat)
    (h : envGet (callerEnvOf p.serverFunction) "OPEN_NEXT_ORIGIN" = none) :
    ((openNextCdkBuild m p now).splitServers.map Prod.fst =
      createdSplitKeysOf m) ∧
    (getSplitFunctionOrigins m ≠ [] →
      ∃ entries,
        (openNextCdkBuild m p now).defaultOriginMap = some entries ∧
        envGet (openNextCdkBuild m p now).defaultServer.env
          "OPEN_NEXT_ORIGIN" = some (encodeOriginMap entries) ∧
        entries.map Prod.fst = createdSplitKeysOf m ∧
        ¬ ("default" ∈ entries.map Prod.fst)) ∧
    (getSplitFunctionOrigins m = [] →
      envGet (openNextCdkBuild m p now).defaultServer.env
        "OPEN_NEXT_ORIGIN" = none) := by
  refine ⟨splitServers_keys m p, ?_, ?_⟩
  · intro hne
    have hm : defaultOriginMapOf m = some (originMapOf m) := by
      unfold defaultOriginMapOf
      rw [if_pos (List.length_pos.mpr hne)]
    refine ⟨originMapOf m, hm, ?_, originMap_keys m, ?_⟩
    · have := envGet_defaultServer_ono m p h
      rw [hm] at this
      exact this
    · intro hmem
      rw [originMap_keys m] at hmem
      exact ((createdSplitKeys_not_reserved m _ hmem).1) rfl
  · intro hemp
    have hm : defaultOriginMapOf m = none := by
      unfold defaultOriginMapOf
      rw [if_neg]
      rw [hemp]
      simp
    have := envGet_defaultServer_ono m p h
    rw [hm] at this
    exact this

def c2WitnessManifest : OpenNextManifest :=
  { origins :=
      [("default", { type := "function" }),
       ("api", { type := "function" })]
    behaviors :=
      [{ pattern := "api/*", origin := some "api" },
       { pattern := "*", origin := some "default" }] }

/-- Claim C2 witness: the amended theorem applied to a manifest with one
compute-typed non-reserved origin key. -/
theorem c2_witness :
    ((openNextCdkBuild c2WitnessManifest {} 0).splitServers.map Prod.fst =
      createdSplitKeysOf c2WitnessManifest) ∧
    (∃ entries,
      (openNextCdkBuild c2WitnessManifest {} 0).defaultOriginMap =
        some entries ∧
      envGet (openNextCdkBuild c2WitnessManifest {} 0).defaultServer.env
        "OPEN_NEXT_ORIGIN" = some (encodeOriginMap entries) ∧
      entries.map Prod.fst = createdSplitKeysOf c2WitnessManifest ∧
      ¬ ("default" ∈ entries.map Prod.fst)) :=
  ⟨(c2_amended_split_functions c2WitnessManifest {} 0 rfl).1,
   (c2_amended_split_functions c2WitnessManifest {} 0 rfl).2.1
     (by decide)⟩

/-! ## Determinism of the build (C9) -/

/-- Erase a seeder node's deploy-time trigger property. -/
def zeroTimestamp (s : SeederNode) : SeederNode :=
  { s with deployTimestamp := 0 }

/-- Erase the only wall-clock-dependent property of a build output: the
seeder custom resource's `deployTimestamp` re-trigger property. -/
def scrubSeederTimestamp (o : BuildOutput) : BuildOutput :=
  { o with seeder := o.seeder.map zeroTimestamp }

/-- The scrubbed seeder is independent of the wall clock. -/
theorem seeder_scrub_clock_free (tt : Option String) (hi : Bool)
    (fnEnv : List (String × String)) (t : Nat) :
    (seederComponent tt hi fnEnv t).map zeroTimestamp =
      (seederComponent tt hi fnEnv 0).map zeroTimestamp := by
  cases tt with
  | none => rfl
  | some tbl => cases hi <;> rfl

def c9Manifest : OpenNextManifest :=
  { origins := [("default", { type := "function" })]
    behaviors := [{ pattern := "*", origin := some "default" }]
    additionalProps :=
      some { initializationFunction := some "dynamodb-provider" } }

/-- Claim C9 counterexample: for a manifest that is seeder-eligible, two
invocations of the build with the same manifest and caller props (at
different wall-clock instants, as `Date.now()` yields) produce DIFFERENT
resource graphs: the seeder custom resource's `deployTimestamp` property
changes every deploy by design. -/
theorem c9_counterexample :
    openNextCdkBuild c9Manifest {} 0 ≠ openNextCdkBuild c9Manifest {} 1 := by
  intro h
  have h2 := congrArg (fun o => o.seeder) h
  have h3 : (openNextCdkBuild c9Manifest {} 0).seeder ≠
      (openNextCdkBuild c9Manifest {} 1).seeder := by decide
  exact h3 h2

/-- Claim C9 (amended): the build is a pure, deterministic, single-pass
transform of (manifest, caller props) up to the seeder's deploy-time
re-trigger timestamp — after erasing that single property, two
invocations at any two instants produce identical resource graphs
(and a build with no eligible seeder is identical outright). -/
theorem c9_amended_deterministic (m : OpenNextManifest)
    (p : OpenNextCdkProps) (t1 t2 : Nat) :
    scrubSeederTimestamp (openNextCdkBuild m p t1) =
      scrubSeederTimestamp (openNextCdkBuild m p t2) := by
  unfold openNextCdkBuild scrubSeederTimestamp
  simp only [seeder_scrub_clock_free]
